import Mathlib

/-!
# Deployment scripts of limit-order-protocol

A shallow embedding of the three deployment scripts

* `deploy-tron/2_deploy_limit_order_protocol.js`
* `deploy-tron/3_deploy_limit_order_protocol.js`
* `deploy/deploy.js`

The scripts are `async` functions that talk to external collaborators (the
TronBox deployer, the hardhat-deploy `deploy` function, `getChainId`,
`getNamedAccounts` and `hre.run`).  Every collaborator is a parameter: a
state-passing function that either returns a value or throws.  A script run
yields an `Outcome`: how the promise settles, the ordered list of collaborator
calls it made, and the final state of the outside world.
-/

set_option autoImplicit false

namespace LOP

/-! ## JavaScript values and property lookup -/

/-- JavaScript values that flow through the scripts.  `builtin` stands for a
function or object of the standard library (always an object, hence truthy),
identified by the path under which it is reachable. -/
inductive JSValue where
  | undefined
  | str (s : String)
  | num (n : Nat)
  | builtin (path : String)
  deriving DecidableEq, Repr

/-- JavaScript `ToBoolean`: `undefined`, the empty string and `0` are falsy,
every object is truthy. -/
def JSValue.truthy : JSValue → Bool
  | .undefined => false
  | .str s => s != ""
  | .num n => n != 0
  | .builtin _ => true

/-- The own properties of an object written as an object literal, in source
order.  The prototype of such an object is `Object.prototype`. -/
abbrev JSObject := List (String × JSValue)

/-- The property names every ordinary object inherits from
`Object.prototype`. -/
def objectPrototypeKeys : List String :=
  ["constructor", "__defineGetter__", "__defineSetter__", "hasOwnProperty",
   "__lookupGetter__", "__lookupSetter__", "isPrototypeOf",
   "propertyIsEnumerable", "toString", "valueOf", "__proto__",
   "toLocaleString"]

/-- Reading `key` on `Object.prototype` through an ordinary object: each
inherited name yields a function (or, for `__proto__`, `Object.prototype`
itself); any other name yields `undefined`. -/
def objectPrototypeGet (key : String) : JSValue :=
  if key ∈ objectPrototypeKeys then .builtin ("Object.prototype." ++ key)
  else .undefined

/-- The own property `key` of `o`, if there is one. -/
def getOwn (o : JSObject) (key : String) : Option JSValue :=
  o.lookup key

/-- The member access `o[key]`: an own property wins, otherwise the lookup
continues along the prototype chain. -/
def getProp (o : JSObject) (key : String) : JSValue :=
  match getOwn o key with
  | some v => v
  | none => objectPrototypeGet key

/-- A thrown JavaScript `Error`. -/
structure JSError where
  message : String
  deriving DecidableEq, Repr

/-! ## Collaborator calls and outcomes -/

/-- One observable call made by a script, in the order it is made. -/
inductive Call where
  | log (args : List JSValue)
  | deployerDeploy (artifact : String) (args : List JSValue)
  | deployed (artifact : String)
  | getChainId
  | getNamedAccounts
  | deploy (name : String) (options : JSObject)
  | run (task : String) (args : JSObject)
  deriving DecidableEq, Repr

/-- How a run of a script ends: `result` is the settlement of the returned
promise (`.ok v` fulfilled with `v`, `.error e` rejected with `e`), `calls`
the collaborator calls made, `state` the outside world afterwards. -/
structure Outcome (σ : Type) where
  result : Except JSError JSValue
  calls : List Call
  state : σ

/-- The `deployer.deploy(artifact, ...args)` calls of a run. -/
def deployerCalls : List Call → List (String × List JSValue)
  | [] => []
  | .deployerDeploy a args :: cs => (a, args) :: deployerCalls cs
  | _ :: cs => deployerCalls cs

/-- The hardhat-deploy `deploy(name, options)` calls of a run. -/
def deployCalls : List Call → List (String × JSObject)
  | [] => []
  | .deploy n o :: cs => (n, o) :: deployCalls cs
  | _ :: cs => deployCalls cs

/-- The `hre.run(task, args)` calls of a run. -/
def runCalls : List Call → List (String × JSObject)
  | [] => []
  | .run t a :: cs => (t, a) :: runCalls cs
  | _ :: cs => runCalls cs

/-- The addresses a run reports through
`console.log('LimitOrderProtocol deployed to:', address)`. -/
def reportedAddresses : List Call → List JSValue
  | [] => []
  | .log [.str "LimitOrderProtocol deployed to:", a] :: cs => a :: reportedAddresses cs
  | _ :: cs => reportedAddresses cs

/-! ## The Tron migrations -/

/-- The handle `artifacts.require('LimitOrderProtocol')`. -/
def LimitOrderProtocol : String := "LimitOrderProtocol"

/-- What `LimitOrderProtocol.deployed()` resolves to; only `address` is read. -/
structure ContractInstance where
  address : String
  deriving DecidableEq, Repr

/-- The collaborators of a TronBox migration: `deployer.deploy` and
`LimitOrderProtocol.deployed`. -/
structure TronBox (σ : Type) where
  deploy : String → List JSValue → σ → Except JSError Unit × σ
  deployed : String → σ → Except JSError ContractInstance × σ

/-- The error thrown at line 21 of both migrations. -/
def unconfiguredNetwork (network : String) : JSError :=
  ⟨"Configuration for network \"" ++ network ++ "\" not found. Please add it to the script."⟩

/-- The function body shared, line for line, by the `module.exports` of
`2_deploy_limit_order_protocol.js` and `3_deploy_limit_order_protocol.js`
(lines 8-29); the two files differ only in the table `wethByNetwork`.
`accounts` is the text the template literal of line 11 renders. -/
def migrate {σ : Type} (wethByNetwork : JSObject) (deployer : TronBox σ)
    (network accounts : String) (s : σ) : Outcome σ :=
  let c0 : List Call :=
    [.log [.str "Running deployment for LimitOrderProtocol..."],
     .log [.str ("Network: " ++ network)],
     .log [.str ("Deployer account: " ++ accounts)]]
  let networkConfig := getProp wethByNetwork network
  if !networkConfig.truthy then
    { result := .error (unconfiguredNetwork network), calls := c0, state := s }
  else
    let c1 := c0 ++ [.deployerDeploy LimitOrderProtocol [networkConfig]]
    match deployer.deploy LimitOrderProtocol [networkConfig] s with
    | (.error e, s1) => { result := .error e, calls := c1, state := s1 }
    | (.ok _, s1) =>
      let c2 := c1 ++ [.deployed LimitOrderProtocol]
      match deployer.deployed LimitOrderProtocol s1 with
      | (.error e, s2) => { result := .error e, calls := c2, state := s2 }
      | (.ok limitOrderProtocol, s2) =>
        { result := .ok .undefined
          calls := c2 ++ [.log [.str "LimitOrderProtocol deployed to:",
                                .str limitOrderProtocol.address]]
          state := s2 }

namespace Migration2

/-- The table of `2_deploy_limit_order_protocol.js`, lines 3-6. -/
def wethByNetwork : JSObject :=
  [("tron", .str "TUrzzZSyCtu2aXdkxnwUqNpqBgoodrbN8Y"),
   ("nile", .str "TUrzzZSyCtu2aXdkxnwUqNpqBgoodrbN8Y")]

/-- The `module.exports` of `2_deploy_limit_order_protocol.js`. -/
def exports {σ : Type} (deployer : TronBox σ) (network accounts : String) (s : σ) :
    Outcome σ :=
  migrate wethByNetwork deployer network accounts s

end Migration2

namespace Migration3

/-- The table of `3_deploy_limit_order_protocol.js`, lines 3-6. -/
def wethByNetwork : JSObject :=
  [("tron", .str ""),
   ("nile", .str "TMY5c28cmksFEpF5oJZt334fPXSg2Lfp4C")]

/-- The `module.exports` of `3_deploy_limit_order_protocol.js`. -/
def exports {σ : Type} (deployer : TronBox σ) (network accounts : String) (s : σ) :
    Outcome σ :=
  migrate wethByNetwork deployer network accounts s

end Migration3

/-! ## The Hardhat deployment script -/

/-- Modelled from the spec: the reply of the Deployer collaborator, which is
not part of the script (section 6: `deploy(...) -> {address, alreadyDeployed:
bool}`).  The script reads `address` only. -/
structure DeployResult where
  address : String
  alreadyDeployed : Bool
  deriving DecidableEq, Repr

/-- The collaborators of `deploy.js`: `getChainId` and `run` of the Hardhat
runtime environment `hre`, and `getNamedAccounts` and `deployments.deploy` of
the argument object.  `network` is `hre.network.name`, which line 2 imports
as `network`. -/
structure Hardhat (σ : Type) where
  network : String
  getChainId : σ → Except JSError JSValue × σ
  getNamedAccounts : σ → Except JSError JSObject × σ
  deploy : String → JSObject → σ → Except JSError DeployResult × σ
  run : String → JSObject → σ → Except JSError Unit × σ

namespace DeployJs

/-- The table of `deploy.js`, lines 4-10. -/
def wethByNetwork : JSObject :=
  [("hardhat", .str "0xC02aaA39b223FE8D0A0e5C4F27eAD9083C756Cc2"),
   ("mainnet", .str "0xC02aaA39b223FE8D0A0e5C4F27eAD9083C756Cc2"),
   ("sepolia", .str "0xfFf9976782d46CC05630D1f6eBAb18b2324d6B14"),
   ("baseSepolia", .str "0x1Ac57B55b351151ec6c8C656a9B46E528B014945"),
   ("xtzGhostnet", .str "0x1Ac57B55b351151ec6c8C656a9B46E528B014945")]

/-- The options object of lines 19-22, `{ from: deployer, gasLimit: 30_000_000 }`. -/
def deployOptions (deployer : JSValue) : JSObject :=
  [("from", deployer), ("gasLimit", .num 30000000)]

/-- The `module.exports` of `deploy.js` (lines 12-31).  Neither
`wethByNetwork` nor `hre.network` occurs in the body. -/
def exports {σ : Type} (hre : Hardhat σ) (s : σ) : Outcome σ :=
  let c0 : List Call := [.log [.str "running deploy script"], .getChainId]
  match hre.getChainId s with
  | (.error e, s1) => { result := .error e, calls := c0, state := s1 }
  | (.ok id0, s1) =>
    let c1 := c0 ++ [.log [.str "network id ", id0], .getNamedAccounts]
    match hre.getNamedAccounts s1 with
    | (.error e, s2) => { result := .error e, calls := c1, state := s2 }
    | (.ok namedAccounts, s2) =>
      let deployer := getProp namedAccounts "deployer"
      let c2 := c1 ++ [.deploy "LimitOrderProtocol" (deployOptions deployer)]
      match hre.deploy "LimitOrderProtocol" (deployOptions deployer) s2 with
      | (.error e, s3) => { result := .error e, calls := c2, state := s3 }
      | (.ok limitOrderProtocol, s3) =>
        let c3 := c2 ++ [.log [.str "LimitOrderProtocol deployed to:",
                               .str limitOrderProtocol.address], .getChainId]
        match hre.getChainId s3 with
        | (.error e, s4) => { result := .error e, calls := c3, state := s4 }
        | (.ok id, s4) =>
          if id ≠ .str "31337" then
            let verifyArgs : JSObject := [("address", .str limitOrderProtocol.address)]
            let c4 := c3 ++ [.run "verify:verify" verifyArgs]
            match hre.run "verify:verify" verifyArgs s4 with
            | (.error e, s5) => { result := .error e, calls := c4, state := s5 }
            | (.ok _, s5) => { result := .ok .undefined, calls := c4, state := s5 }
          else
            { result := .ok .undefined, calls := c3, state := s4 }

end DeployJs

/-! ## Collaborator models used to run the scripts on concrete inputs -/

/-- A TronBox deployer whose two collaborators always succeed and leave the
world (here: nothing) untouched. -/
def quietTronBox (address : String) : TronBox Unit where
  deploy := fun _ _ s => (.ok (), s)
  deployed := fun _ s => (.ok ⟨address⟩, s)

/-- A Hardhat environment whose collaborators answer with fixed replies and
keep no state. -/
def scriptedHardhat (network : String) (chainId : JSValue) (namedAccounts : JSObject)
    (deployment : Except JSError DeployResult) (verification : Except JSError Unit) :
    Hardhat Unit where
  network := network
  getChainId := fun s => (.ok chainId, s)
  getNamedAccounts := fun s => (.ok namedAccounts, s)
  deploy := fun _ _ s => (deployment, s)
  run := fun _ _ s => (verification, s)

/-- The deployments recorded on one network: contract name and address, the
most recent first. -/
abbrev Registry := List (String × String)

/-- Modelled from the spec: the idempotent Deployer collaborator of section
4.2 step 2 ("if an address is already recorded for this contract+network
pair, it MUST return the existing address rather than redeploying"), behind the
hardhat-deploy interface.  A recorded contract is answered with its recorded
address and `alreadyDeployed := true`; otherwise `fresh` is recorded and
returned with `alreadyDeployed := false`. -/
def idempotentHardhat (network : String) (chainId : JSValue) (namedAccounts : JSObject)
    (fresh : String) (verification : Except JSError Unit) : Hardhat Registry where
  network := network
  getChainId := fun s => (.ok chainId, s)
  getNamedAccounts := fun s => (.ok namedAccounts, s)
  deploy := fun name _ s =>
    match s.lookup name with
    | some a => (.ok ⟨a, true⟩, s)
    | none => (.ok ⟨fresh, false⟩, (name, fresh) :: s)
  run := fun _ _ s => (verification, s)

/-- Modelled from the spec: the idempotent Deployer collaborator of section
4.2 step 2, behind the TronBox interface.  `deploy` records `fresh` for an
artifact that has no recorded address and does nothing otherwise; `deployed`
answers with the recorded address and throws when there is none. -/
def idempotentTronBox (fresh : String) : TronBox Registry where
  deploy := fun artifact _ s =>
    match s.lookup artifact with
    | some _ => (.ok (), s)
    | none => (.ok (), (artifact, fresh) :: s)
  deployed := fun artifact s =>
    match s.lookup artifact with
    | some a => (.ok ⟨a⟩, s)
    | none => (.error ⟨artifact ++ " has not been deployed to detected network"⟩, s)

/-! ## Running a script twice in sequence -/

/-- Two runs of a migration body in sequence: the second starts in the state
the first one left. -/
def migrateTwice {σ : Type} (wethByNetwork : JSObject) (deployer : TronBox σ)
    (network accounts : String) (s : σ) : Outcome σ × Outcome σ :=
  let first := migrate wethByNetwork deployer network accounts s
  (first, migrate wethByNetwork deployer network accounts first.state)

/-- Two runs of `deploy.js` in sequence: the second starts in the state the
first one left. -/
def DeployJs.exportsTwice {σ : Type} (hre : Hardhat σ) (s : σ) : Outcome σ × Outcome σ :=
  let first := DeployJs.exports hre s
  (first, DeployJs.exports hre first.state)

/-! ## Basic facts about the migrations -/

/-- When the safety check of line 20 fires, the run is exactly: three log
lines, then the rejection; nothing else happens. -/
theorem migrate_of_falsy {σ : Type} (w : JSObject) (deployer : TronBox σ)
    (network accounts : String) (s : σ)
    (h : (getProp w network).truthy = false) :
    migrate w deployer network accounts s =
      { result := .error (unconfiguredNetwork network)
        calls := [.log [.str "Running deployment for LimitOrderProtocol..."],
                  .log [.str ("Network: " ++ network)],
                  .log [.str ("Deployer account: " ++ accounts)]]
        state := s } := by
  simp [migrate, h]

/-- When the safety check of line 20 passes, `deployer.deploy` is called
exactly once, with the artifact and the looked-up value as sole argument. -/
theorem migrate_of_truthy {σ : Type} (w : JSObject) (deployer : TronBox σ)
    (network accounts : String) (s : σ)
    (h : (getProp w network).truthy = true) :
    deployerCalls (migrate w deployer network accounts s).calls =
      [(LimitOrderProtocol, [getProp w network])] := by
  unfold migrate
  simp only [h]
  rcases hd : deployer.deploy LimitOrderProtocol [getProp w network] s with ⟨r | r, s1⟩
  · simp [hd, deployerCalls]
  · rcases hi : deployer.deployed LimitOrderProtocol s1 with ⟨i | i, s2⟩ <;>
      simp [hd, hi, deployerCalls]

/-- An own property shadows whatever the prototype chain holds. -/
theorem getProp_of_getOwn (w : JSObject) (key : String) (v : JSValue)
    (h : getOwn w key = some v) : getProp w key = v := by
  simp [getProp, h]

/-- A non-empty string is truthy. -/
theorem truthy_str_of_ne (v : String) (hv : v ≠ "") : (JSValue.str v).truthy = true := by
  simp [JSValue.truthy, hv]

/-! ## Basic facts about the Hardhat script -/

/-- The run in which `deploy` throws: the rejection is the thrown error and
the script stops right after the `deploy` call. -/
theorem exports_of_deploy_error {σ : Type} (hre : Hardhat σ) (s s1 s2 s3 : σ)
    (id0 : JSValue) (namedAccounts : JSObject) (e : JSError)
    (h1 : hre.getChainId s = (.ok id0, s1))
    (h2 : hre.getNamedAccounts s1 = (.ok namedAccounts, s2))
    (h3 : hre.deploy "LimitOrderProtocol"
            (DeployJs.deployOptions (getProp namedAccounts "deployer")) s2 = (.error e, s3)) :
    DeployJs.exports hre s =
      { result := .error e
        calls := [.log [.str "running deploy script"], .getChainId,
                  .log [.str "network id ", id0], .getNamedAccounts,
                  .deploy "LimitOrderProtocol"
                    (DeployJs.deployOptions (getProp namedAccounts "deployer"))]
        state := s3 } := by
  simp [DeployJs.exports, h1, h2, h3]

/-- The run on the local chain: after a successful `deploy` and a second
`getChainId` answering `'31337'`, the script is done. -/
theorem exports_of_local {σ : Type} (hre : Hardhat σ) (s s1 s2 s3 s4 : σ)
    (id0 : JSValue) (namedAccounts : JSObject) (r : DeployResult)
    (h1 : hre.getChainId s = (.ok id0, s1))
    (h2 : hre.getNamedAccounts s1 = (.ok namedAccounts, s2))
    (h3 : hre.deploy "LimitOrderProtocol"
            (DeployJs.deployOptions (getProp namedAccounts "deployer")) s2 = (.ok r, s3))
    (h4 : hre.getChainId s3 = (.ok (.str "31337"), s4)) :
    DeployJs.exports hre s =
      { result := .ok .undefined
        calls := [.log [.str "running deploy script"], .getChainId,
                  .log [.str "network id ", id0], .getNamedAccounts,
                  .deploy "LimitOrderProtocol"
                    (DeployJs.deployOptions (getProp namedAccounts "deployer")),
                  .log [.str "LimitOrderProtocol deployed to:", .str r.address],
                  .getChainId]
        state := s4 } := by
  simp [DeployJs.exports, h1, h2, h3, h4]

/-- The run on any other chain: after a successful `deploy` the verifier is
called once, and the promise settles the way the verifier does. -/
theorem exports_of_remote {σ : Type} (hre : Hardhat σ) (s s1 s2 s3 s4 s5 : σ)
    (id0 id : JSValue) (namedAccounts : JSObject) (r : DeployResult)
    (v : Except JSError Unit)
    (h1 : hre.getChainId s = (.ok id0, s1))
    (h2 : hre.getNamedAccounts s1 = (.ok namedAccounts, s2))
    (h3 : hre.deploy "LimitOrderProtocol"
            (DeployJs.deployOptions (getProp namedAccounts "deployer")) s2 = (.ok r, s3))
    (h4 : hre.getChainId s3 = (.ok id, s4)) (hid : id ≠ .str "31337")
    (h5 : hre.run "verify:verify" [("address", .str r.address)] s4 = (v, s5)) :
    DeployJs.exports hre s =
      { result := v.map (fun _ => JSValue.undefined)
        calls := [.log [.str "running deploy script"], .getChainId,
                  .log [.str "network id ", id0], .getNamedAccounts,
                  .deploy "LimitOrderProtocol"
                    (DeployJs.deployOptions (getProp namedAccounts "deployer")),
                  .log [.str "LimitOrderProtocol deployed to:", .str r.address],
                  .getChainId,
                  .run "verify:verify" [("address", .str r.address)]]
        state := s5 } := by
  cases v <;> simp [DeployJs.exports, h1, h2, h3, h4, h5, hid, Except.map]

/-! ## Basic facts about runs against the idempotent deployers -/

/-- Looking up the key just put in front of a registry finds it. -/
theorem lookup_cons_self (name a : String) (reg : Registry) :
    List.lookup name ((name, a) :: reg) = some a := by
  simp [List.lookup]

/-- One run of `deploy.js` against the idempotent deployer, started with the
contract on record at `a`: the address reported is `a`, the record is left as
it is, and the promise settles the way the chain id and the verifier
decide. -/
theorem exports_idempotent_recorded (network : String) (chainId : JSValue)
    (namedAccounts : JSObject) (fresh a : String) (verification : Except JSError Unit)
    (reg : Registry) (h : List.lookup "LimitOrderProtocol" reg = some a) :
    DeployJs.exports
        (idempotentHardhat network chainId namedAccounts fresh verification) reg =
      { result := if chainId = .str "31337" then .ok .undefined
                  else verification.map (fun _ => JSValue.undefined)
        calls := [.log [.str "running deploy script"], .getChainId,
                  .log [.str "network id ", chainId], .getNamedAccounts,
                  .deploy "LimitOrderProtocol"
                    (DeployJs.deployOptions (getProp namedAccounts "deployer")),
                  .log [.str "LimitOrderProtocol deployed to:", .str a],
                  .getChainId] ++
                 (if chainId = .str "31337" then []
                  else [.run "verify:verify" [("address", .str a)]])
        state := reg } := by
  by_cases hid : chainId = .str "31337"
  · subst hid
    rw [exports_of_local _ reg reg reg reg reg (.str "31337") namedAccounts ⟨a, true⟩
      rfl rfl (by simp [idempotentHardhat, h]) rfl]
    simp
  · rw [exports_of_remote _ reg reg reg reg reg reg chainId chainId namedAccounts
      ⟨a, true⟩ verification rfl rfl (by simp [idempotentHardhat, h]) rfl hid rfl]
    simp [hid]

/-- One run of `deploy.js` against the idempotent deployer, started with no
record of the contract: `fresh` is recorded and reported. -/
theorem exports_idempotent_fresh (network : String) (chainId : JSValue)
    (namedAccounts : JSObject) (fresh : String) (verification : Except JSError Unit)
    (reg : Registry) (h : List.lookup "LimitOrderProtocol" reg = none) :
    DeployJs.exports
        (idempotentHardhat network chainId namedAccounts fresh verification) reg =
      { result := if chainId = .str "31337" then .ok .undefined
                  else verification.map (fun _ => JSValue.undefined)
        calls := [.log [.str "running deploy script"], .getChainId,
                  .log [.str "network id ", chainId], .getNamedAccounts,
                  .deploy "LimitOrderProtocol"
                    (DeployJs.deployOptions (getProp namedAccounts "deployer")),
                  .log [.str "LimitOrderProtocol deployed to:", .str fresh],
                  .getChainId] ++
                 (if chainId = .str "31337" then []
                  else [.run "verify:verify" [("address", .str fresh)]])
        state := ("LimitOrderProtocol", fresh) :: reg } := by
  by_cases hid : chainId = .str "31337"
  · subst hid
    rw [exports_of_local _ reg reg reg (("LimitOrderProtocol", fresh) :: reg)
      (("LimitOrderProtocol", fresh) :: reg) (.str "31337") namedAccounts ⟨fresh, false⟩
      rfl rfl (by simp [idempotentHardhat, h]) rfl]
    simp
  · rw [exports_of_remote _ reg reg reg (("LimitOrderProtocol", fresh) :: reg)
      (("LimitOrderProtocol", fresh) :: reg) (("LimitOrderProtocol", fresh) :: reg)
      chainId chainId namedAccounts ⟨fresh, false⟩ verification rfl rfl
      (by simp [idempotentHardhat, h]) rfl hid rfl]
    simp [hid]

/-- One run of a migration against the idempotent deployer on a network whose
looked-up value is truthy, started with the artifact on record at `a`. -/
theorem migrate_idempotent_recorded (w : JSObject) (network accounts fresh a : String)
    (reg : Registry) (hw : (getProp w network).truthy = true)
    (h : List.lookup LimitOrderProtocol reg = some a) :
    migrate w (idempotentTronBox fresh) network accounts reg =
      { result := .ok .undefined
        calls := [.log [.str "Running deployment for LimitOrderProtocol..."],
                  .log [.str ("Network: " ++ network)],
                  .log [.str ("Deployer account: " ++ accounts)],
                  .deployerDeploy LimitOrderProtocol [getProp w network],
                  .deployed LimitOrderProtocol,
                  .log [.str "LimitOrderProtocol deployed to:", .str a]]
        state := reg } := by
  simp [migrate, hw, idempotentTronBox, h]

/-- One run of a migration against the idempotent deployer on a network whose
looked-up value is truthy, started with no record of the artifact. -/
theorem migrate_idempotent_fresh (w : JSObject) (network accounts fresh : String)
    (reg : Registry) (hw : (getProp w network).truthy = true)
    (h : List.lookup LimitOrderProtocol reg = none) :
    migrate w (idempotentTronBox fresh) network accounts reg =
      { result := .ok .undefined
        calls := [.log [.str "Running deployment for LimitOrderProtocol..."],
                  .log [.str ("Network: " ++ network)],
                  .log [.str ("Deployer account: " ++ accounts)],
                  .deployerDeploy LimitOrderProtocol [getProp w network],
                  .deployed LimitOrderProtocol,
                  .log [.str "LimitOrderProtocol deployed to:", .str fresh]]
        state := (LimitOrderProtocol, fresh) :: reg } := by
  simp [migrate, hw, idempotentTronBox, h, List.lookup]

/-! ## The Tron migrations: claims -/

/-- C1 (fails on the code).  The claim: every network identifier that is not
a key of `wethByNetwork` is rejected with the "not found" error.  The code:
`constructor` is an own key of neither table, yet in both migrations the
lookup of line 17 finds the inherited `Object.prototype.constructor`, the
check of line 20 passes, and `deployer.deploy` is called with that function
as constructor argument, whatever the deployer does; with a deployer that
accepts the call the run is fulfilled. -/
theorem inherited_name_passes_safety_check {σ : Type} (deployer : TronBox σ)
    (accounts : String) (s : σ) :
    getOwn Migration2.wethByNetwork "constructor" = none ∧
    getOwn Migration3.wethByNetwork "constructor" = none ∧
    deployerCalls (Migration2.exports deployer "constructor" accounts s).calls =
      [(LimitOrderProtocol, [.builtin "Object.prototype.constructor"])] ∧
    deployerCalls (Migration3.exports deployer "constructor" accounts s).calls =
      [(LimitOrderProtocol, [.builtin "Object.prototype.constructor"])] ∧
    (Migration2.exports (quietTronBox "TLop") "constructor" "TAcc" ()).result =
      .ok .undefined ∧
    (Migration3.exports (quietTronBox "TLop") "constructor" "TAcc" ()).result =
      .ok .undefined := by
  refine ⟨by decide, by decide, ?_, ?_, by rfl, by rfl⟩
  · exact migrate_of_truthy Migration2.wethByNetwork deployer "constructor" accounts s
      (by decide)
  · exact migrate_of_truthy Migration3.wethByNetwork deployer "constructor" accounts s
      (by decide)

/-- C2.  For every table and every network identifier that the table maps to
the empty-string placeholder, the migration is rejected with the "not found"
error naming that identifier, after the three log lines and without touching
the deployer; and its outcome is the very outcome of a run against a table
`absent` in which the lookup of the identifier finds nothing. -/
theorem placeholder_rejected_like_absent {σ : Type} (w absent : JSObject)
    (deployer : TronBox σ) (network accounts : String) (s : σ)
    (h : getOwn w network = some (.str ""))
    (ha : getProp absent network = .undefined) :
    (migrate w deployer network accounts s).result = .error (unconfiguredNetwork network) ∧
    (migrate w deployer network accounts s).calls =
      [.log [.str "Running deployment for LimitOrderProtocol..."],
       .log [.str ("Network: " ++ network)],
       .log [.str ("Deployer account: " ++ accounts)]] ∧
    (migrate w deployer network accounts s).state = s ∧
    migrate w deployer network accounts s = migrate absent deployer network accounts s := by
  have hw : (getProp w network).truthy = false := by
    rw [getProp_of_getOwn w network _ h]; rfl
  have hab : (getProp absent network).truthy = false := by
    rw [ha]; rfl
  rw [migrate_of_falsy w deployer network accounts s hw,
    migrate_of_falsy absent deployer network accounts s hab]
  exact ⟨rfl, rfl, rfl, rfl⟩

/-- Witness for C2: `tron` in `3_deploy_limit_order_protocol.js`, compared
with a table that has no `tron` entry. -/
theorem placeholder_rejected_like_absent_witness :
    (Migration3.exports (quietTronBox "TLop") "tron" "TAcc" ()).result =
      .error (unconfiguredNetwork "tron") ∧
    (Migration3.exports (quietTronBox "TLop") "tron" "TAcc" ()).calls =
      [.log [.str "Running deployment for LimitOrderProtocol..."],
       .log [.str ("Network: " ++ "tron")],
       .log [.str ("Deployer account: " ++ "TAcc")]] ∧
    (Migration3.exports (quietTronBox "TLop") "tron" "TAcc" ()).state = () ∧
    Migration3.exports (quietTronBox "TLop") "tron" "TAcc" () =
      migrate [("nile", .str "TMY5c28cmksFEpF5oJZt334fPXSg2Lfp4C")]
        (quietTronBox "TLop") "tron" "TAcc" () :=
  placeholder_rejected_like_absent Migration3.wethByNetwork
    [("nile", .str "TMY5c28cmksFEpF5oJZt334fPXSg2Lfp4C")]
    (quietTronBox "TLop") "tron" "TAcc" () (by decide) (by decide)

/-- C3.  For every table and every network identifier the table maps to a
non-empty string `v`, the value read at line 17 is `v` itself, and the
migration calls `deployer.deploy` exactly once, with the LimitOrderProtocol
artifact and `v` as the sole constructor argument, whatever `v` looks like and
whatever the deployer answers. -/
theorem configured_value_deployed_unchanged {σ : Type} (w : JSObject)
    (deployer : TronBox σ) (network accounts v : String) (s : σ)
    (h : getOwn w network = some (.str v)) (hv : v ≠ "") :
    getProp w network = .str v ∧
    deployerCalls (migrate w deployer network accounts s).calls =
      [(LimitOrderProtocol, [.str v])] := by
  have hp : getProp w network = .str v := getProp_of_getOwn w network _ h
  refine ⟨hp, ?_⟩
  have := migrate_of_truthy w deployer network accounts s
    (by rw [hp]; exact truthy_str_of_ne v hv)
  rw [this, hp]

/-- Witness for C3: `nile` in `3_deploy_limit_order_protocol.js`. -/
theorem configured_value_deployed_unchanged_witness :
    getProp Migration3.wethByNetwork "nile" = .str "TMY5c28cmksFEpF5oJZt334fPXSg2Lfp4C" ∧
    deployerCalls (Migration3.exports (quietTronBox "TLop") "nile" "TAcc" ()).calls =
      [(LimitOrderProtocol, [.str "TMY5c28cmksFEpF5oJZt334fPXSg2Lfp4C"])] :=
  configured_value_deployed_unchanged Migration3.wethByNetwork (quietTronBox "TLop")
    "nile" "TAcc" "TMY5c28cmksFEpF5oJZt334fPXSg2Lfp4C" () (by decide) (by decide)

/-- C4.  For every table and every network identifier on which the
configuration check of lines 17-20 fails (the looked-up value is falsy), the
migration is rejected with the "not found" error, no `deployer.deploy` call is
made, `LimitOrderProtocol.deployed` is not called either, and the state of the
deployer is the state before the run. -/
theorem failed_resolution_never_deploys {σ : Type} (w : JSObject)
    (deployer : TronBox σ) (network accounts : String) (s : σ)
    (h : (getProp w network).truthy = false) :
    (migrate w deployer network accounts s).result = .error (unconfiguredNetwork network) ∧
    deployerCalls (migrate w deployer network accounts s).calls = [] ∧
    Call.deployed LimitOrderProtocol ∉ (migrate w deployer network accounts s).calls ∧
    (migrate w deployer network accounts s).state = s := by
  rw [migrate_of_falsy w deployer network accounts s h]
  refine ⟨rfl, rfl, ?_, rfl⟩
  simp

/-- Witness for C4: the unlisted network `shasta` in
`2_deploy_limit_order_protocol.js`, run against the idempotent deployer with
one earlier deployment on record. -/
theorem failed_resolution_never_deploys_witness :
    (Migration2.exports (idempotentTronBox "TNew") "shasta" "TAcc"
        [("Migrations", "TOld")]).result = .error (unconfiguredNetwork "shasta") ∧
    deployerCalls (Migration2.exports (idempotentTronBox "TNew") "shasta" "TAcc"
        [("Migrations", "TOld")]).calls = [] ∧
    Call.deployed LimitOrderProtocol ∉
      (Migration2.exports (idempotentTronBox "TNew") "shasta" "TAcc"
        [("Migrations", "TOld")]).calls ∧
    (Migration2.exports (idempotentTronBox "TNew") "shasta" "TAcc"
        [("Migrations", "TOld")]).state = [("Migrations", "TOld")] :=
  failed_resolution_never_deploys Migration2.wethByNetwork (idempotentTronBox "TNew")
    "shasta" "TAcc" [("Migrations", "TOld")] (by decide)

/-- C10 (fails on the code).  The claim: `nile` is the one identifier both
migrations accept, and there they pass different arguments, so that running 2
then 3 never deploys from one agreed configuration.  The code: whatever
migration 3 accepts migration 2 accepts, `tron` is accepted by 2 and rejected
by 3, and on `nile` the two pass different arguments; but `constructor`,
which is not `nile`, is accepted by both as well, and running migration 2 and
then migration 3 on it makes two `deployer.deploy` calls with one and the same
argument, the inherited `Object.prototype.constructor`. -/
theorem migrations_agree_on_inherited_name {σ : Type} (deployer : TronBox σ)
    (accounts : String) (s : σ) :
    (∀ n : String, (getProp Migration3.wethByNetwork n).truthy = true →
        (getProp Migration2.wethByNetwork n).truthy = true) ∧
    (getProp Migration2.wethByNetwork "tron").truthy = true ∧
    (getProp Migration3.wethByNetwork "tron").truthy = false ∧
    deployerCalls (Migration2.exports deployer "nile" accounts s).calls ≠
      deployerCalls (Migration3.exports deployer "nile" accounts
        (Migration2.exports deployer "nile" accounts s).state).calls ∧
    "constructor" ≠ "nile" ∧
    deployerCalls (Migration2.exports deployer "constructor" accounts s).calls =
      [(LimitOrderProtocol, [.builtin "Object.prototype.constructor"])] ∧
    deployerCalls (Migration3.exports deployer "constructor" accounts
        (Migration2.exports deployer "constructor" accounts s).state).calls =
      [(LimitOrderProtocol, [.builtin "Object.prototype.constructor"])] := by
  refine ⟨?_, by decide, by decide, ?_, by decide, ?_, ?_⟩
  · intro n h
    by_cases h1 : n = "tron"
    · subst h1; revert h; decide
    · by_cases h2 : n = "nile"
      · subst h2; decide
      · have b1 : (n == "tron") = false := by simp [h1]
        have b2 : (n == "nile") = false := by simp [h2]
        have e3 : getProp Migration3.wethByNetwork n = objectPrototypeGet n := by
          simp only [getProp, getOwn, Migration3.wethByNetwork, List.lookup, b1, b2]
        have e2 : getProp Migration2.wethByNetwork n = objectPrototypeGet n := by
          simp only [getProp, getOwn, Migration2.wethByNetwork, List.lookup, b1, b2]
        rw [e2, ← e3]; exact h
  · have a2 := migrate_of_truthy Migration2.wethByNetwork deployer "nile" accounts s
      (by decide)
    have a3 := migrate_of_truthy Migration3.wethByNetwork deployer "nile" accounts
      (Migration2.exports deployer "nile" accounts s).state (by decide)
    simp only [Migration2.exports, Migration3.exports] at *
    rw [a2, a3]
    decide
  · exact migrate_of_truthy Migration2.wethByNetwork deployer "constructor" accounts s
      (by decide)
  · exact migrate_of_truthy Migration3.wethByNetwork deployer "constructor" accounts
      (Migration2.exports deployer "constructor" accounts s).state (by decide)

/-! ## The Hardhat script: claims -/

/-- C5 (fails on the code).  The claim: `deploy.js` resolves the network in
its `wethByNetwork` before deploying, fails with the "not found" error when
there is no usable entry, and passes the resolved arguments to `deploy`.  The
code: the outcome of a run does not depend on the network name at all; on
`unknownNet`, which has no entry, the run is fulfilled and `deploy` is called;
on `mainnet`, which has one, `deploy` receives the options `from` and
`gasLimit` only, with no `args` property. -/
theorem deploy_js_ignores_wethByNetwork {σ : Type} (hre : Hardhat σ) (s : σ)
    (n : String) :
    DeployJs.exports { hre with network := n } s = DeployJs.exports hre s ∧
    getProp DeployJs.wethByNetwork "unknownNet" = .undefined ∧
    (DeployJs.exports (scriptedHardhat "unknownNet" (.str "1") [("deployer", .str "0xD")]
        (.ok ⟨"0xLOP", false⟩) (.ok ())) ()).result = .ok .undefined ∧
    deployCalls (DeployJs.exports (scriptedHardhat "unknownNet" (.str "1")
        [("deployer", .str "0xD")] (.ok ⟨"0xLOP", false⟩) (.ok ())) ()).calls =
      [("LimitOrderProtocol", [("from", .str "0xD"), ("gasLimit", .num 30000000)])] ∧
    getProp DeployJs.wethByNetwork "mainnet" =
      .str "0xC02aaA39b223FE8D0A0e5C4F27eAD9083C756Cc2" ∧
    deployCalls (DeployJs.exports (scriptedHardhat "mainnet" (.str "1")
        [("deployer", .str "0xD")] (.ok ⟨"0xLOP", false⟩) (.ok ())) ()).calls =
      [("LimitOrderProtocol", [("from", .str "0xD"), ("gasLimit", .num 30000000)])] ∧
    getOwn (DeployJs.deployOptions (.str "0xD")) "args" = none := by
  refine ⟨rfl, by decide, by rfl, by decide, by decide, by decide, by decide⟩

/-- C6.  In every run of `deploy.js` in which the collaborators up to and
including `deploy` succeed and the chain id read at line 26 is `id`: no
`hre.run` call is made when `id` is `'31337'`; otherwise exactly one is made,
the task `verify:verify` with the address `deploy` returned; hence a verifier
call is made if and only if `id` is not `'31337'`. -/
theorem verifier_called_iff_not_local {σ : Type} (hre : Hardhat σ) (s s1 s2 s3 s4 : σ)
    (id0 id : JSValue) (namedAccounts : JSObject) (r : DeployResult)
    (h1 : hre.getChainId s = (.ok id0, s1))
    (h2 : hre.getNamedAccounts s1 = (.ok namedAccounts, s2))
    (h3 : hre.deploy "LimitOrderProtocol"
            (DeployJs.deployOptions (getProp namedAccounts "deployer")) s2 = (.ok r, s3))
    (h4 : hre.getChainId s3 = (.ok id, s4)) :
    (id = .str "31337" → runCalls (DeployJs.exports hre s).calls = []) ∧
    (id ≠ .str "31337" → runCalls (DeployJs.exports hre s).calls =
        [("verify:verify", [("address", .str r.address)])]) ∧
    (runCalls (DeployJs.exports hre s).calls ≠ [] ↔ id ≠ .str "31337") := by
  by_cases hid : id = .str "31337"
  · subst hid
    rw [exports_of_local hre s s1 s2 s3 s4 id0 namedAccounts r h1 h2 h3 h4]
    simp [runCalls]
  · rcases h5 : hre.run "verify:verify" [("address", .str r.address)] s4 with ⟨v, s5⟩
    rw [exports_of_remote hre s s1 s2 s3 s4 s5 id0 id namedAccounts r v h1 h2 h3 h4 hid h5]
    simp [runCalls, hid]

/-- Witness for C6: a deployment to chain `11155111`. -/
theorem verifier_called_iff_not_local_witness :
    (JSValue.str "11155111" = .str "31337" →
      runCalls (DeployJs.exports (scriptedHardhat "sepolia" (.str "11155111")
        [("deployer", .str "0xD")] (.ok ⟨"0xLOP", false⟩) (.ok ())) ()).calls = []) ∧
    (JSValue.str "11155111" ≠ .str "31337" →
      runCalls (DeployJs.exports (scriptedHardhat "sepolia" (.str "11155111")
        [("deployer", .str "0xD")] (.ok ⟨"0xLOP", false⟩) (.ok ())) ()).calls =
        [("verify:verify", [("address", .str "0xLOP")])]) ∧
    (runCalls (DeployJs.exports (scriptedHardhat "sepolia" (.str "11155111")
        [("deployer", .str "0xD")] (.ok ⟨"0xLOP", false⟩) (.ok ())) ()).calls ≠ [] ↔
      JSValue.str "11155111" ≠ .str "31337") :=
  verifier_called_iff_not_local
    (scriptedHardhat "sepolia" (.str "11155111") [("deployer", .str "0xD")]
      (.ok ⟨"0xLOP", false⟩) (.ok ()))
    () () () () () (.str "11155111") (.str "11155111") [("deployer", .str "0xD")]
    ⟨"0xLOP", false⟩ rfl rfl rfl rfl

/-- C7, counterexample.  On chain `11155111`, with a `deploy` that succeeds
and a verifier that throws, the run of `deploy.js` is rejected with the
verifier's error: it does not complete successfully. -/
theorem verifier_failure_rejects_run :
    (DeployJs.exports (scriptedHardhat "sepolia" (.str "11155111")
        [("deployer", .str "0xD")] (.ok ⟨"0xLOP", false⟩)
        (.error ⟨"Etherscan: verification failed"⟩)) ()).result =
      .error ⟨"Etherscan: verification failed"⟩ ∧
    (DeployJs.exports (scriptedHardhat "sepolia" (.str "11155111")
        [("deployer", .str "0xD")] (.ok ⟨"0xLOP", false⟩)
        (.error ⟨"Etherscan: verification failed"⟩)) ()).result ≠ .ok .undefined := by
  constructor
  · rfl
  · intro h
    have h2 : (DeployJs.exports (scriptedHardhat "sepolia" (.str "11155111")
        [("deployer", .str "0xD")] (.ok ⟨"0xLOP", false⟩)
        (.error ⟨"Etherscan: verification failed"⟩)) ()).result =
        .error ⟨"Etherscan: verification failed"⟩ := rfl
    rw [h2] at h
    cases h

/-- C7, amended.  In every run of `deploy.js` in which `deploy` succeeds, the
chain id read at line 26 is not `'31337'` and `verify:verify` throws `e`, the
run is rejected with exactly `e`; by then `deploy` has been called once, the
deployed address has been logged, and the verifier has been called once. -/
theorem verifier_error_propagates {σ : Type} (hre : Hardhat σ) (s s1 s2 s3 s4 s5 : σ)
    (id0 id : JSValue) (namedAccounts : JSObject) (r : DeployResult) (e : JSError)
    (h1 : hre.getChainId s = (.ok id0, s1))
    (h2 : hre.getNamedAccounts s1 = (.ok namedAccounts, s2))
    (h3 : hre.deploy "LimitOrderProtocol"
            (DeployJs.deployOptions (getProp namedAccounts "deployer")) s2 = (.ok r, s3))
    (h4 : hre.getChainId s3 = (.ok id, s4)) (hid : id ≠ .str "31337")
    (h5 : hre.run "verify:verify" [("address", .str r.address)] s4 = (.error e, s5)) :
    (DeployJs.exports hre s).result = .error e ∧
    deployCalls (DeployJs.exports hre s).calls =
      [("LimitOrderProtocol", DeployJs.deployOptions (getProp namedAccounts "deployer"))] ∧
    reportedAddresses (DeployJs.exports hre s).calls = [.str r.address] ∧
    runCalls (DeployJs.exports hre s).calls =
      [("verify:verify", [("address", .str r.address)])] ∧
    (DeployJs.exports hre s).state = s5 := by
  rw [exports_of_remote hre s s1 s2 s3 s4 s5 id0 id namedAccounts r (.error e)
    h1 h2 h3 h4 hid h5]
  exact ⟨rfl, rfl, rfl, rfl, rfl⟩

/-- Witness for C7, amended: chain `1`, the verifier throws. -/
theorem verifier_error_propagates_witness :
    (DeployJs.exports (scriptedHardhat "mainnet" (.str "1") [("deployer", .str "0xD")]
        (.ok ⟨"0xLOP", false⟩) (.error ⟨"timeout"⟩)) ()).result = .error ⟨"timeout"⟩ ∧
    deployCalls (DeployJs.exports (scriptedHardhat "mainnet" (.str "1")
        [("deployer", .str "0xD")] (.ok ⟨"0xLOP", false⟩) (.error ⟨"timeout"⟩)) ()).calls =
      [("LimitOrderProtocol",
        DeployJs.deployOptions (getProp [("deployer", .str "0xD")] "deployer"))] ∧
    reportedAddresses (DeployJs.exports (scriptedHardhat "mainnet" (.str "1")
        [("deployer", .str "0xD")] (.ok ⟨"0xLOP", false⟩) (.error ⟨"timeout"⟩)) ()).calls =
      [.str "0xLOP"] ∧
    runCalls (DeployJs.exports (scriptedHardhat "mainnet" (.str "1")
        [("deployer", .str "0xD")] (.ok ⟨"0xLOP", false⟩) (.error ⟨"timeout"⟩)) ()).calls =
      [("verify:verify", [("address", .str "0xLOP")])] ∧
    (DeployJs.exports (scriptedHardhat "mainnet" (.str "1") [("deployer", .str "0xD")]
        (.ok ⟨"0xLOP", false⟩) (.error ⟨"timeout"⟩)) ()).state = () :=
  verifier_error_propagates
    (scriptedHardhat "mainnet" (.str "1") [("deployer", .str "0xD")]
      (.ok ⟨"0xLOP", false⟩) (.error ⟨"timeout"⟩))
    () () () () () () (.str "1") (.str "1") [("deployer", .str "0xD")]
    ⟨"0xLOP", false⟩ ⟨"timeout"⟩ rfl rfl rfl rfl (by decide) rfl

/-- C8.  In every run of `deploy.js` in which `deploy` throws `e`, the run is
rejected with exactly `e`, `deploy` has been called exactly once, and
`hre.run` is never called. -/
theorem deploy_error_is_fatal {σ : Type} (hre : Hardhat σ) (s s1 s2 s3 : σ)
    (id0 : JSValue) (namedAccounts : JSObject) (e : JSError)
    (h1 : hre.getChainId s = (.ok id0, s1))
    (h2 : hre.getNamedAccounts s1 = (.ok namedAccounts, s2))
    (h3 : hre.deploy "LimitOrderProtocol"
            (DeployJs.deployOptions (getProp namedAccounts "deployer")) s2 = (.error e, s3)) :
    (DeployJs.exports hre s).result = .error e ∧
    deployCalls (DeployJs.exports hre s).calls =
      [("LimitOrderProtocol", DeployJs.deployOptions (getProp namedAccounts "deployer"))] ∧
    runCalls (DeployJs.exports hre s).calls = [] ∧
    (DeployJs.exports hre s).state = s3 := by
  rw [exports_of_deploy_error hre s s1 s2 s3 id0 namedAccounts e h1 h2 h3]
  exact ⟨rfl, rfl, rfl, rfl⟩

/-- Witness for C8: `deploy` throws on chain `1`. -/
theorem deploy_error_is_fatal_witness :
    (DeployJs.exports (scriptedHardhat "mainnet" (.str "1") [("deployer", .str "0xD")]
        (.error ⟨"insufficient funds"⟩) (.ok ())) ()).result =
      .error ⟨"insufficient funds"⟩ ∧
    deployCalls (DeployJs.exports (scriptedHardhat "mainnet" (.str "1")
        [("deployer", .str "0xD")] (.error ⟨"insufficient funds"⟩) (.ok ())) ()).calls =
      [("LimitOrderProtocol",
        DeployJs.deployOptions (getProp [("deployer", .str "0xD")] "deployer"))] ∧
    runCalls (DeployJs.exports (scriptedHardhat "mainnet" (.str "1")
        [("deployer", .str "0xD")] (.error ⟨"insufficient funds"⟩) (.ok ())) ()).calls = [] ∧
    (DeployJs.exports (scriptedHardhat "mainnet" (.str "1") [("deployer", .str "0xD")]
        (.error ⟨"insufficient funds"⟩) (.ok ())) ()).state = () :=
  deploy_error_is_fatal
    (scriptedHardhat "mainnet" (.str "1") [("deployer", .str "0xD")]
      (.error ⟨"insufficient funds"⟩) (.ok ()))
    () () () () (.str "1") [("deployer", .str "0xD")] ⟨"insufficient funds"⟩ rfl rfl rfl

/-! ## Running twice against an idempotent deployer: claim -/

/-- C9, counterexample.  `deploy.js` is run twice on chain `11155111` against
the idempotent deployer.  In the second run the deployer answers with the
recorded address and `alreadyDeployed := true`, yet the second run is fulfilled
with `undefined` and makes exactly the calls of the first run, log lines
included: nothing the script yields marks the second run as already
deployed. -/
theorem second_run_carries_no_mark :
    ((idempotentHardhat "sepolia" (.str "11155111") [("deployer", .str "0xD")] "0xLOP"
        (.ok ())).deploy "LimitOrderProtocol" (DeployJs.deployOptions (.str "0xD"))
        (DeployJs.exportsTwice (idempotentHardhat "sepolia" (.str "11155111")
          [("deployer", .str "0xD")] "0xLOP" (.ok ())) []).1.state).1 =
      .ok ⟨"0xLOP", true⟩ ∧
    (DeployJs.exportsTwice (idempotentHardhat "sepolia" (.str "11155111")
        [("deployer", .str "0xD")] "0xLOP" (.ok ())) []).2.result = .ok .undefined ∧
    (DeployJs.exportsTwice (idempotentHardhat "sepolia" (.str "11155111")
        [("deployer", .str "0xD")] "0xLOP" (.ok ())) []).2.calls =
      [.log [.str "running deploy script"], .getChainId,
       .log [.str "network id ", .str "11155111"], .getNamedAccounts,
       .deploy "LimitOrderProtocol" [("from", .str "0xD"), ("gasLimit", .num 30000000)],
       .log [.str "LimitOrderProtocol deployed to:", .str "0xLOP"],
       .getChainId,
       .run "verify:verify" [("address", .str "0xLOP")]] ∧
    (DeployJs.exportsTwice (idempotentHardhat "sepolia" (.str "11155111")
        [("deployer", .str "0xD")] "0xLOP" (.ok ())) []).2.calls =
      (DeployJs.exportsTwice (idempotentHardhat "sepolia" (.str "11155111")
        [("deployer", .str "0xD")] "0xLOP" (.ok ())) []).1.calls := by
  refine ⟨by rfl, by rfl, by decide, by decide⟩

/-- C9, amended.  Against the idempotent deployer, two runs in sequence of
`deploy.js` (on any chain, from any registry), and two runs in sequence of a
Tron migration on a network whose looked-up value is truthy, behave alike: the
second run makes exactly the calls of the first, the same deploy request
included, settles the same way, reports the same deployed address (the
recorded one, or the fresh one when there was none), and leaves the registry
as the first run left it, with that address on record.  The value a fulfilled
run yields is `undefined`; no already-deployed mark is part of it. -/
theorem second_run_repeats_first (network : String) (chainId : JSValue)
    (namedAccounts : JSObject) (fresh tronFresh : String)
    (verification : Except JSError Unit) (reg tronReg : Registry)
    (w : JSObject) (tronNetwork accounts : String)
    (hw : (getProp w tronNetwork).truthy = true) :
    ((DeployJs.exportsTwice (idempotentHardhat network chainId namedAccounts fresh verification) reg).2.calls =
        (DeployJs.exportsTwice (idempotentHardhat network chainId namedAccounts fresh verification) reg).1.calls ∧
     (DeployJs.exportsTwice (idempotentHardhat network chainId namedAccounts fresh verification) reg).2.result =
        (DeployJs.exportsTwice (idempotentHardhat network chainId namedAccounts fresh verification) reg).1.result ∧
     (DeployJs.exportsTwice (idempotentHardhat network chainId namedAccounts fresh verification) reg).2.result =
        (if chainId = .str "31337" then .ok .undefined
         else Except.map (fun _ => JSValue.undefined) verification) ∧
     (DeployJs.exportsTwice (idempotentHardhat network chainId namedAccounts fresh verification) reg).2.state =
        (DeployJs.exportsTwice (idempotentHardhat network chainId namedAccounts fresh verification) reg).1.state ∧
     reportedAddresses (DeployJs.exportsTwice (idempotentHardhat network chainId namedAccounts fresh verification) reg).1.calls =
        [.str ((List.lookup "LimitOrderProtocol" reg).getD fresh)] ∧
     reportedAddresses (DeployJs.exportsTwice (idempotentHardhat network chainId namedAccounts fresh verification) reg).2.calls =
        [.str ((List.lookup "LimitOrderProtocol" reg).getD fresh)] ∧
     List.lookup "LimitOrderProtocol" (DeployJs.exportsTwice (idempotentHardhat network chainId namedAccounts fresh verification) reg).2.state =
        some ((List.lookup "LimitOrderProtocol" reg).getD fresh)) ∧
    ((migrateTwice w (idempotentTronBox tronFresh) tronNetwork accounts tronReg).2.calls =
        (migrateTwice w (idempotentTronBox tronFresh) tronNetwork accounts tronReg).1.calls ∧
     (migrateTwice w (idempotentTronBox tronFresh) tronNetwork accounts tronReg).1.result = .ok .undefined ∧
     (migrateTwice w (idempotentTronBox tronFresh) tronNetwork accounts tronReg).2.result = .ok .undefined ∧
     (migrateTwice w (idempotentTronBox tronFresh) tronNetwork accounts tronReg).2.state =
        (migrateTwice w (idempotentTronBox tronFresh) tronNetwork accounts tronReg).1.state ∧
     deployerCalls (migrateTwice w (idempotentTronBox tronFresh) tronNetwork accounts tronReg).2.calls =
        [(LimitOrderProtocol, [getProp w tronNetwork])] ∧
     reportedAddresses (migrateTwice w (idempotentTronBox tronFresh) tronNetwork accounts tronReg).1.calls =
        [.str ((List.lookup LimitOrderProtocol tronReg).getD tronFresh)] ∧
     reportedAddresses (migrateTwice w (idempotentTronBox tronFresh) tronNetwork accounts tronReg).2.calls =
        [.str ((List.lookup LimitOrderProtocol tronReg).getD tronFresh)] ∧
     List.lookup LimitOrderProtocol (migrateTwice w (idempotentTronBox tronFresh) tronNetwork accounts tronReg).2.state =
        some ((List.lookup LimitOrderProtocol tronReg).getD tronFresh)) := by
  constructor
  · simp only [DeployJs.exportsTwice]
    cases hl : List.lookup "LimitOrderProtocol" reg with
    | none =>
      rw [exports_idempotent_fresh network chainId namedAccounts fresh verification reg hl]
      simp only []
      rw [exports_idempotent_recorded network chainId namedAccounts fresh fresh verification
        (("LimitOrderProtocol", fresh) :: reg) (lookup_cons_self _ _ _)]
      by_cases hid : chainId = .str "31337" <;>
        simp [hid, reportedAddresses, lookup_cons_self]
    | some a =>
      rw [exports_idempotent_recorded network chainId namedAccounts fresh a verification
        reg hl]
      simp only []
      rw [exports_idempotent_recorded network chainId namedAccounts fresh a verification
        reg hl]
      by_cases hid : chainId = .str "31337" <;>
        simp [hid, reportedAddresses, hl]
  · simp only [migrateTwice]
    cases hl : List.lookup LimitOrderProtocol tronReg with
    | none =>
      rw [migrate_idempotent_fresh w tronNetwork accounts tronFresh tronReg hw hl]
      simp only []
      rw [migrate_idempotent_recorded w tronNetwork accounts tronFresh tronFresh
        ((LimitOrderProtocol, tronFresh) :: tronReg) hw (lookup_cons_self _ _ _)]
      simp [reportedAddresses, deployerCalls, lookup_cons_self]
    | some a =>
      rw [migrate_idempotent_recorded w tronNetwork accounts tronFresh a tronReg hw hl]
      simp only []
      rw [migrate_idempotent_recorded w tronNetwork accounts tronFresh a tronReg hw hl]
      simp [reportedAddresses, deployerCalls, hl]

/-- Witness for C9, amended: `deploy.js` on chain `11155111` and migration 3
on `nile`, both started with nothing on record. -/
theorem second_run_repeats_first_witness :
    ((DeployJs.exportsTwice (idempotentHardhat "sepolia" (.str "11155111")
        [("deployer", .str "0xD")] "0xLOP" (.ok ())) ([] : Registry)).2.calls =
        (DeployJs.exportsTwice (idempotentHardhat "sepolia" (.str "11155111")
        [("deployer", .str "0xD")] "0xLOP" (.ok ())) ([] : Registry)).1.calls ∧
     (DeployJs.exportsTwice (idempotentHardhat "sepolia" (.str "11155111")
        [("deployer", .str "0xD")] "0xLOP" (.ok ())) ([] : Registry)).2.result =
        (DeployJs.exportsTwice (idempotentHardhat "sepolia" (.str "11155111")
        [("deployer", .str "0xD")] "0xLOP" (.ok ())) ([] : Registry)).1.result ∧
     (DeployJs.exportsTwice (idempotentHardhat "sepolia" (.str "11155111")
        [("deployer", .str "0xD")] "0xLOP" (.ok ())) ([] : Registry)).2.result =
        (if JSValue.str "11155111" = .str "31337" then .ok .undefined
         else Except.map (fun _ => JSValue.undefined) (Except.ok () : Except JSError Unit)) ∧
     (DeployJs.exportsTwice (idempotentHardhat "sepolia" (.str "11155111")
        [("deployer", .str "0xD")] "0xLOP" (.ok ())) ([] : Registry)).2.state =
        (DeployJs.exportsTwice (idempotentHardhat "sepolia" (.str "11155111")
        [("deployer", .str "0xD")] "0xLOP" (.ok ())) ([] : Registry)).1.state ∧
     reportedAddresses (DeployJs.exportsTwice (idempotentHardhat "sepolia" (.str "11155111")
        [("deployer", .str "0xD")] "0xLOP" (.ok ())) ([] : Registry)).1.calls =
        [.str ((List.lookup "LimitOrderProtocol" ([] : Registry)).getD "0xLOP")] ∧
     reportedAddresses (DeployJs.exportsTwice (idempotentHardhat "sepolia" (.str "11155111")
        [("deployer", .str "0xD")] "0xLOP" (.ok ())) ([] : Registry)).2.calls =
        [.str ((List.lookup "LimitOrderProtocol" ([] : Registry)).getD "0xLOP")] ∧
     List.lookup "LimitOrderProtocol" (DeployJs.exportsTwice (idempotentHardhat "sepolia" (.str "11155111")
        [("deployer", .str "0xD")] "0xLOP" (.ok ())) ([] : Registry)).2.state =
        some ((List.lookup "LimitOrderProtocol" ([] : Registry)).getD "0xLOP")) ∧
    ((migrateTwice Migration3.wethByNetwork (idempotentTronBox "TLop")
        "nile" "TAcc" ([] : Registry)).2.calls =
        (migrateTwice Migration3.wethByNetwork (idempotentTronBox "TLop")
        "nile" "TAcc" ([] : Registry)).1.calls ∧
     (migrateTwice Migration3.wethByNetwork (idempotentTronBox "TLop")
        "nile" "TAcc" ([] : Registry)).1.result = .ok .undefined ∧
     (migrateTwice Migration3.wethByNetwork (idempotentTronBox "TLop")
        "nile" "TAcc" ([] : Registry)).2.result = .ok .undefined ∧
     (migrateTwice Migration3.wethByNetwork (idempotentTronBox "TLop")
        "nile" "TAcc" ([] : Registry)).2.state =
        (migrateTwice Migration3.wethByNetwork (idempotentTronBox "TLop")
        "nile" "TAcc" ([] : Registry)).1.state ∧
     deployerCalls (migrateTwice Migration3.wethByNetwork (idempotentTronBox "TLop")
        "nile" "TAcc" ([] : Registry)).2.calls =
        [(LimitOrderProtocol, [getProp Migration3.wethByNetwork "nile"])] ∧
     reportedAddresses (migrateTwice Migration3.wethByNetwork (idempotentTronBox "TLop")
        "nile" "TAcc" ([] : Registry)).1.calls =
        [.str ((List.lookup LimitOrderProtocol ([] : Registry)).getD "TLop")] ∧
     reportedAddresses (migrateTwice Migration3.wethByNetwork (idempotentTronBox "TLop")
        "nile" "TAcc" ([] : Registry)).2.calls =
        [.str ((List.lookup LimitOrderProtocol ([] : Registry)).getD "TLop")] ∧
     List.lookup LimitOrderProtocol (migrateTwice Migration3.wethByNetwork (idempotentTronBox "TLop")
        "nile" "TAcc" ([] : Registry)).2.state =
        some ((List.lookup LimitOrderProtocol ([] : Registry)).getD "TLop")) :=
  second_run_repeats_first "sepolia" (.str "11155111") [("deployer", .str "0xD")]
    "0xLOP" "TLop" (.ok ()) [] [] Migration3.wethByNetwork "nile" "TAcc" (by decide)

end LOP
